import Mathlib

/-!
Shallow embedding of the skilift journey planner (src/skilift.py, src/utils.py).

Conventions of the embedding:
* GTFS stop/trip/service identifiers are opaque hashable Python values; the ones
  that occur in a feed are strings or integers loaded by pandas.  They are
  modelled by `PyScalar`.  A numpy integer scalar broadcasts `==` elementwise
  over a tuple, while a Python string compares unequal to a whole tuple; this
  dynamic behaviour is modelled in `flatnonzero_eq`.
* Seconds-since-midnight values are `Nat` (the source stores `np.uint32`
  arrays; arithmetic that can wrap is modelled with `u32sub`).
* `pd.Timestamp` values are modelled as integer absolute seconds in the local
  wall clock of the feed (the feed is used in one timezone; every timestamp of
  the transit subsystem is a whole number of GTFS seconds).
  `seconds_since_midnight`, `date_of` and `timedelta_seconds` model the
  timestamp accessors used by the source.
* Python exceptions (KeyError on a dict, IndexError on an array, TypeError)
  are modelled by `Option`: a `none` result of a provider function means the
  source raises.
* Python dicts built at ingest are modelled as total functions or association
  lists; a concrete feed instantiates them.  Python `set` iteration order is a
  deterministic but unspecified function of hashes and insertion history, so a
  set index is carried as the list of its elements in iteration order.
-/

namespace Skilift

/-- A scalar Python value that can serve as a GTFS identifier: either a
numpy/pandas integer (loaded from an integer column) or a string. -/
inductive PyScalar where
  | intv (n : Int)
  | strv (s : String)
deriving DecidableEq, Repr

/-- Model of `np.flatnonzero(self.stop_ids == stop_id)` in
`Timetable.find_timetable_events`, where `self.stop_ids` is a Python *tuple*
(it is the stop pattern tuple passed in by `GTFSFeed._get_timetables`).
If `stop_id` is a numpy integer scalar, the reflected `==` broadcasts
elementwise over the tuple and `flatnonzero` yields the matching indices.
If `stop_id` is a Python string, `tuple == str` is the scalar `False`, so
`flatnonzero` yields the empty index array. -/
def flatnonzero_eq (stop_ids : List PyScalar) (stop_id : PyScalar) : List Nat :=
  match stop_id with
  | .intv _ => stop_ids.enum.filterMap (fun p => if p.2 = stop_id then some p.1 else none)
  | .strv _ => []

/-- `Timetable`: trip and stop ids plus the two R x C second arrays
(`arrival_times`, `departure_times`), rows = trips, columns = stops. -/
structure Timetable where
  trip_ids : List PyScalar
  stop_ids : List PyScalar
  arrival_times : List (List Nat)
  departure_times : List (List Nat)
deriving DecidableEq, Repr

/-- Column `c` of a 2-d array, `a[:, c]`.  All rows of a materialized
timetable have length C and `c < C` at every use, so the default is never
read. -/
def npCol (a : List (List Nat)) (c : Nat) : List Nat :=
  a.map (fun row => row.getD c 0)

/-- Model of `np.searchsorted(column, q, side="left")`.  On a sorted column
(the `Timetable` class requires that no trip overtakes another, so each
departure column is nondecreasing) the left insertion point is the number of
elements strictly below the query. -/
def searchsorted_left (l : List Nat) (q : Nat) : Nat :=
  l.countP (fun x => decide (x < q))

/-- Model of `np.searchsorted(column, q, side="right")`: the number of
elements at or below the query, for a sorted column. -/
def searchsorted_right (l : List Nat) (q : Nat) : Nat :=
  l.countP (fun x => decide (x ≤ q))

/-- `Timetable._lookup_departure`.  The terminal-column test compares Python
ints, hence the `Int` cast (`len(stop_ids) - 1` can be `-1`). -/
def lookup_departure (tt : Timetable) (stop_index : Nat) (query_time : Nat) :
    Option (Nat × Nat) :=
  if (stop_index : Int) = (tt.stop_ids.length : Int) - 1 then none
  else
    let column := npCol tt.departure_times stop_index
    let trip_index := searchsorted_left column query_time
    if trip_index = tt.departure_times.length then none
    else some (trip_index, column.getD trip_index 0)

/-- `Timetable._lookup_arrival`: searchsorted right on the departure column,
minus one; the event time is read from the arrival column. -/
def lookup_arrival (tt : Timetable) (stop_index : Nat) (query_time : Nat) :
    Option (Nat × Nat) :=
  if stop_index = 0 then none
  else
    let column := npCol tt.departure_times stop_index
    let j := searchsorted_right column query_time
    if j = 0 then none
    else some (j - 1, (npCol tt.arrival_times stop_index).getD (j - 1) 0)

/-- `TimetableEvent`: (row, col, seconds). -/
structure TimetableEvent where
  row : Nat
  col : Nat
  time : Nat
deriving DecidableEq, Repr

/-- `Timetable.find_timetable_events`: for each index produced by
`np.flatnonzero(self.stop_ids == stop_id)` run the departure or arrival
lookup and collect the successful results in index order. -/
def find_timetable_events (tt : Timetable) (stop_id : PyScalar) (query_time : Nat)
    (find_departure : Bool) : List TimetableEvent :=
  (flatnonzero_eq tt.stop_ids stop_id).filterMap (fun c =>
    (if find_departure then lookup_departure tt c query_time
     else lookup_arrival tt c query_time).map
      (fun e => ⟨e.1, c, e.2⟩))

/-- `TransitEvent` as produced by `GTFSFeed.find_stop_events`. -/
structure TransitEvent where
  pattern_id : Nat
  service_id : Nat
  row : Nat
  col : Nat
  datetime : Int
deriving DecidableEq, Repr

/-- The parts of a `GTFSFeed` consulted by `find_stop_events`:
`stop_pattern_ids` (dict stop -> set of pattern ids, carried in set-iteration
order), `_service_dates` (dict date -> set of service ids, in set-iteration
order; a date with no service maps to the empty list, which a real feed
realizes through a `calendar_dates.txt` remove-exception), the timetable
dict keyed on (pattern id, service id), and `_day_end`
(`max(departure_time)` over the whole feed). -/
structure GTFSFeed where
  stop_pattern_ids : PyScalar → List Nat
  service_dates : Int → List Nat
  timetables : List ((Nat × Nat) × Timetable)
  day_end : Nat

/-- `seconds_since_midnight(timestamp)` = `hour*3600 + minute*60 + second`,
which for an absolute-seconds timestamp is its value modulo 86400
(`Int.emod` is nonnegative for a positive modulus). -/
def seconds_since_midnight (ts : Int) : Int := Int.emod ts 86400

/-- `timestamp.date()` as a day number (floor division). -/
def date_of (ts : Int) : Int := Int.fdiv ts 86400

/-- The `.seconds` component of a `pd.Timedelta`: the normalized timedelta
has `0 ≤ seconds < 86400`. -/
def timedelta_seconds (d : Int) : Int := Int.emod d 86400

/-- The whole-second part of a `pd.Timedelta(seconds=x)` built from a float
number of seconds.  The model works at one-second timestamp resolution
(every timestamp of the transit subsystem is a whole number of GTFS
seconds); the fractional walking durations of the street provider are
truncated, which no structural claim depends on. -/
def timedelta_whole_seconds (q : ℚ) : Int := Int.fdiv q.num (q.den : Int)

/-- The day-rollover test of `GTFSFeed.find_stop_events`:
`query_time + secs_in_day < self._day_end` (strict). -/
def rollover_shift (feed : GTFSFeed) (query_datetime : Int) : Bool :=
  decide (seconds_since_midnight query_datetime + 86400 < (feed.day_end : Int))

/-- The service date `find_stop_events` consults: the calendar date of the
query, moved one day back when the rollover rule fires. -/
def query_service_date (feed : GTFSFeed) (query_datetime : Int) : Int :=
  if rollover_shift feed query_datetime then date_of query_datetime - 1
  else date_of query_datetime

/-- `GTFSFeed.find_stop_events`.  The day-rollover rule shifts the query one
service day back when `seconds_since_midnight + 86400 < day_end` (strict).
Events are collected over the stop-pattern set and active-service set in
their iteration orders; each raw event time is rebased to
`midnight(query_date) + seconds`. -/
def find_stop_events (feed : GTFSFeed) (stop_id : PyScalar) (query_datetime : Int)
    (find_departures : Bool) : List TransitEvent :=
  let qt0 := seconds_since_midnight query_datetime
  let qt : Int := if rollover_shift feed query_datetime then qt0 + 86400 else qt0
  let qd : Int := query_service_date feed query_datetime
  (feed.stop_pattern_ids stop_id).flatMap (fun pid =>
    (feed.service_dates qd).flatMap (fun sid =>
      match feed.timetables.lookup (pid, sid) with
      | none => []
      | some tt =>
          (find_timetable_events tt stop_id qt.toNat find_departures).map (fun ev =>
            ⟨pid, sid, ev.row, ev.col, qd * 86400 + (ev.time : Int)⟩)))

/-- The six vertex variants.  `MidSegmentRef` is flattened into the
`midstreet` variant as (way id, segment index, quantized offset). -/
inductive Vertex where
  | onEarthSurface (lon lat : ℚ) (time : Int)
  | midstreet (way_id : Int) (segment_index : Nat) (offset_int : Int) (time : Int)
  | streetNode (node_id : Int) (time : Int)
  | atStop (stop_id : PyScalar) (time : Int)
  | departure (pattern_id : Nat) (service_id : Nat) (row col : Nat) (time : Int)
  | arrival (pattern_id : Nat) (service_id : Nat) (row col : Nat) (time : Int)
deriving DecidableEq, Repr

/-- A component of a Python `as_tuple()` value. -/
inductive FieldVal where
  | fint (n : Int)
  | fstr (s : String)
  | fq (q : ℚ)
  | fscalar (v : PyScalar)
  | fmidseg (way_id : Int) (segment_index : Nat) (offset_int : Int)
deriving DecidableEq, Repr

/-- The `self.__class__.__name__` component of `_identity_tuple`. -/
def className : Vertex → String
  | .onEarthSurface .. => "OnEarthSurfaceVertex"
  | .midstreet .. => "MidstreetVertex"
  | .streetNode .. => "StreetNodeVertex"
  | .atStop .. => "AtStopVertex"
  | .departure .. => "DepartureVertex"
  | .arrival .. => "ArrivalVertex"

/-- The `as_tuple()` of each vertex variant, as a list of field values. -/
def as_tuple : Vertex → List FieldVal
  | .onEarthSurface lon lat t => [.fq lon, .fq lat, .fint t]
  | .midstreet w s o t => [.fmidseg w s o, .fint t]
  | .streetNode n t => [.fint n, .fint t]
  | .atStop s t => [.fscalar s, .fint t]
  | .departure p svc r c t => [.fint p, .fint svc, .fint r, .fint c, .fint t]
  | .arrival p svc r c t => [.fint p, .fint svc, .fint r, .fint c, .fint t]

/-- `AbstractVertex._identity_tuple`: class name paired with `as_tuple()`. -/
def identity_tuple (v : Vertex) : String × List FieldVal := (className v, as_tuple v)

/-- `AbstractVertex.__eq__`: both operands are vertices, so equality is
comparison of the identity tuples. -/
def vertex_eq (v w : Vertex) : Bool := decide (identity_tuple v = identity_tuple w)

/-- An edge of the implicit graph: target vertex and weight in utils. -/
structure Edge where
  vertex : Vertex
  weight : ℚ
deriving DecidableEq, Repr

/-- `ALIGHTING_WEIGHT` constant. -/
def ALIGHTING_WEIGHT : ℚ := 60

/-- The timestamp stored in a vertex. -/
def vertexTime : Vertex → Int
  | .onEarthSurface _ _ t => t
  | .midstreet _ _ _ t => t
  | .streetNode _ t => t
  | .atStop _ t => t
  | .departure _ _ _ _ t => t
  | .arrival _ _ _ _ t => t

/-- `TransitEdgeProvider._at_stop_vertex_outgoing`.  The weight is
`float((event.datetime - adj_vertex.datetime).seconds)` where `adj_vertex`
was just built carrying `event.datetime` itself. -/
def at_stop_vertex_outgoing (feed : GTFSFeed) (stop_id : PyScalar) (t : Int) :
    List Edge :=
  (find_stop_events feed stop_id t true).map (fun ev =>
    let adj := Vertex.departure ev.pattern_id ev.service_id ev.row ev.col ev.datetime
    ⟨adj, ((timedelta_seconds (ev.datetime - vertexTime adj) : Int) : ℚ)⟩)

/-- Wrapping subtraction of `np.uint32` values. -/
def u32sub (a b : Nat) : Nat := (a + 4294967296 - b) % 4294967296

/-- `a[r, c]` on a 2-d array, failing (IndexError) out of range. -/
def nth2 (a : List (List Nat)) (r c : Nat) : Option Nat :=
  (a.get? r).bind (fun row => row.get? c)

/-- `TransitEdgeProvider._departure_vertex_outgoing`: one edge to the arrival
at the next column.  `none` models the KeyError / IndexError the source
raises when the timetable key is missing or `col + 1` is out of range. -/
def departure_vertex_outgoing (feed : GTFSFeed) (p svc r c : Nat) (t : Int) :
    Option (List Edge) :=
  match feed.timetables.lookup (p, svc) with
  | none => none
  | some tt =>
    match nth2 tt.departure_times r c, nth2 tt.arrival_times r (c + 1) with
    | some dep, some nextArr =>
        let segment_duration := u32sub nextArr dep
        some [⟨Vertex.arrival p svc r (c + 1) (t + (segment_duration : Int)),
               (segment_duration : ℚ)⟩]
    | _, _ => none

/-- `TransitEdgeProvider._arrival_vertex_outgoing`: the wait edge to the
departure at the same column, then the alighting edge to the stop. -/
def arrival_vertex_outgoing (feed : GTFSFeed) (p svc r c : Nat) (t : Int) :
    Option (List Edge) :=
  match feed.timetables.lookup (p, svc) with
  | none => none
  | some tt =>
    match nth2 tt.arrival_times r c, nth2 tt.departure_times r c,
          tt.stop_ids.get? c with
    | some arr, some dep, some stop_id =>
        let wait_duration := u32sub dep arr
        some [⟨Vertex.departure p svc r c (t + (wait_duration : Int)),
               (wait_duration : ℚ)⟩,
              ⟨Vertex.atStop stop_id t, ALIGHTING_WEIGHT⟩]
    | _, _, _ => none

/-- `TransitEdgeProvider.outgoing`, dispatching on the vertex variant;
non-transit vertices get the empty list. -/
def transit_outgoing (feed : GTFSFeed) : Vertex → Option (List Edge)
  | .atStop s t => some (at_stop_vertex_outgoing feed s t)
  | .departure p svc r c t => departure_vertex_outgoing feed p svc r c t
  | .arrival p svc r c t => arrival_vertex_outgoing feed p svc r c t
  | _ => some []

/-- One trip of a (pattern, service) group during ingest: the trip id with
its arrival and departure lists collected in stop-sequence order
(`group.sort_values("stop_sequence").groupby("trip_id").agg(list)`). -/
structure TripSchedule where
  trip_id : PyScalar
  arrival : List Nat
  departure : List Nat
deriving DecidableEq, Repr

/-- The sort key of `grouper_func`: `x.map(lambda x: x[0])` on the arrival
lists, i.e. the first-stop arrival.  A trip group is never empty, so the
default of `headD` is never read. -/
def first_arrival (t : TripSchedule) : Nat := t.arrival.headD 0

/-- Row order produced by `.sort_values("arrival_time", key=first)`. -/
def tripLE (a b : TripSchedule) : Prop := first_arrival a ≤ first_arrival b

instance : DecidableRel tripLE :=
  fun a b => inferInstanceAs (Decidable (first_arrival a ≤ first_arrival b))

instance : IsTotal TripSchedule tripLE :=
  ⟨fun x y => Nat.le_total (first_arrival x) (first_arrival y)⟩

instance : IsTrans TripSchedule tripLE := ⟨fun _ _ _ hab hbc => Nat.le_trans hab hbc⟩

/-- Sorting the rows of one timetable group.  pandas `sort_values` uses an
unstable quicksort, so the order of rows with equal keys is unspecified; the
model fixes one order with an insertion sort, which agrees with the source
whenever the keys are distinct. -/
def sort_trips (trips : List TripSchedule) : List TripSchedule :=
  List.insertionSort tripLE trips

/-- `GTFSFeed._get_timetables` applied to one (stop_pattern_id, service_id)
group: rows sorted by first-stop arrival, then the three parallel columns
are materialized into a `Timetable`. -/
def make_timetable (stop_ids : List PyScalar) (trips : List TripSchedule) : Timetable :=
  let sorted := sort_trips trips
  ⟨sorted.map (fun t => t.trip_id), stop_ids,
   sorted.map (fun t => t.arrival), sorted.map (fun t => t.departure)⟩

/-- An OSM way: ordered node ids and the tag map (as an association list). -/
structure Way where
  nds : List Int
  tags : List (String × String)
deriving DecidableEq, Repr

/-- The street context used by `StreetEdgeProvider`: the way dict and the
node coordinate dict (total on the node ids referenced by ways). -/
structure StreetData where
  ways : List (Int × Way)
  nodes : Int → ℚ × ℚ

/-- `StreetData.is_oneway`: the oneway tag is one of yes/true/1; a missing
tag (`dict.get` returning `None`) is not one-way.  Every caller has already
indexed `ways[way_id]` successfully, so the way is present. -/
def is_oneway (sd : StreetData) (way_id : Int) : Bool :=
  match sd.ways.lookup way_id with
  | none => false
  | some w =>
    match w.tags.lookup "oneway" with
    | some v => decide (v = "yes" ∨ v = "true" ∨ v = "1")
    | none => false

/-- Size of `node_refs[nd]`: the number of (way, position) pairs over all
ways that reference the node. -/
def node_ref_count (sd : StreetData) (nd : Int) : Nat :=
  (sd.ways.map (fun pw => pw.2.nds.countP (fun x => decide (x = nd)))).sum

/-- `StreetData._get_way_vertex_nodes` for one way: the indices that are
terminal or whose node is referenced more than once, in ascending order. -/
def way_vertex_nodes (sd : StreetData) (w : Way) : List Nat :=
  (List.range w.nds.length).filter (fun i =>
    decide (i = 0 ∨ i = w.nds.length - 1 ∨ 1 < node_ref_count sd (w.nds.getD i 0)))

/-- `StreetData.adj_vertex_node`: first vertex-node index at or after
(forward) or at or before (backward) the given position; the Python function
falls off the end and returns `None` when there is none. -/
def adj_vertex_node (sd : StreetData) (w : Way) (node_index : Nat)
    (search_forward : Bool) : Option Nat :=
  if search_forward then
    (way_vertex_nodes sd w).find? (fun v => decide (node_index ≤ v))
  else
    ((way_vertex_nodes sd w).reverse).find? (fun v => decide (v ≤ node_index))

/-- Affine interpolation along a two-point linestring; for a single segment,
shapely's normalized `interpolate` is exactly this. -/
def interpolate_point (p1 p2 : ℚ × ℚ) (off : ℚ) : ℚ × ℚ :=
  (p1.1 + off * (p2.1 - p1.1), p1.2 + off * (p2.2 - p1.2))

/-- `StreetData.get_way_point`: KeyError on a missing way and ValueError on a
segment index outside `[0, len(nds) - 2]` are modelled by `none`. -/
def get_way_point (sd : StreetData) (way_id : Int) (segment_index : Nat)
    (offset_int : Int) : Option (ℚ × ℚ) :=
  match sd.ways.lookup way_id with
  | none => none
  | some w =>
    if (w.nds.length : Int) - 1 ≤ (segment_index : Int) then none
    else
      match w.nds.get? segment_index, w.nds.get? (segment_index + 1) with
      | some nd1, some nd2 =>
          some (interpolate_point (sd.nodes nd1) (sd.nodes nd2)
                  ((offset_int : ℚ) / 100000))
      | _, _ => none

/-- Python slice `l[b:e]` with nonnegative bounds. -/
def slice_fwd (l : List Int) (b e : Nat) : List Int := (l.take e).drop b

/-- Python slice `l[b:e:-1]`: indices from `b` down to `e + 1` (all the way
to 0 when `e` is `None`).  `b` is within range at every use. -/
def slice_rev (l : List Int) (b : Nat) (e : Option Int) : List Int :=
  let stop : Int := match e with | none => -1 | some x => x
  (((List.range (b + 1)).reverse).filter (fun i => decide (stop < Int.ofNat i))).filterMap
    (fun i => l.get? i)

/-- `WALKING_SPEED` constant (1.2 m/s). -/
def WALKING_SPEED : ℚ := 6/5

/-- `WALKING_RELUCTANCE` constant. -/
def WALKING_RELUCTANCE : ℚ := 1

/-- `StreetEdgeProvider._outgoing_midstreet_vertex`.  The geodesic
linestring length (a haversine sum over floats) is passed in as an abstract
length function `llen`; the forward edge is built unconditionally, the
reverse edge only when the way is not one-way.  `none` models the exceptions
the source raises (missing way, invalid segment index, no vertex node found
so `seg_end + 1` is a TypeError, empty slice so `nds[-1]` is an
IndexError). -/
def outgoing_midstreet_vertex (sd : StreetData) (llen : List (ℚ × ℚ) → ℚ)
    (way_id : Int) (segment_index : Nat) (offset_int : Int) (t : Int) :
    Option (List Edge) :=
  match sd.ways.lookup way_id, get_way_point sd way_id segment_index offset_int with
  | some w, some midpoint =>
    let seg_start := segment_index + 1
    match adj_vertex_node sd w seg_start true with
    | none => none
    | some seg_end =>
      let nds := slice_fwd w.nds seg_start (seg_end + 1)
      match nds.getLast? with
      | none => none
      | some last_nd =>
        let dt := llen (midpoint :: nds.map sd.nodes) / WALKING_SPEED
        let fwd : Edge := ⟨Vertex.streetNode last_nd (t + timedelta_whole_seconds dt),
                           dt * WALKING_RELUCTANCE⟩
        if is_oneway sd way_id then some [fwd]
        else
          match adj_vertex_node sd w segment_index false with
          | none => none
          | some seg_end2 =>
            let incl : Option Int :=
              if seg_end2 ≠ 0 then some ((seg_end2 : Int) - 1) else none
            let nds2 := slice_rev w.nds segment_index incl
            match nds2.getLast? with
            | none => none
            | some last_nd2 =>
              let dt2 := llen (midpoint :: nds2.map sd.nodes) / WALKING_SPEED
              some [fwd, ⟨Vertex.streetNode last_nd2 (t + timedelta_whole_seconds dt2),
                          dt2 * WALKING_RELUCTANCE⟩]
  | _, _ => none

/-! Concrete instances used to evaluate the model.  Each corresponds to a
small feed or street network that the source ingest can produce. -/

/-- A timetable over the string-id pattern ("A", "B") with one trip that
departs "A" at second 100 and arrives at "B" at second 200. -/
def ttAB : Timetable :=
  ⟨[PyScalar.strv "trip1"], [PyScalar.strv "A", PyScalar.strv "B"],
   [[100, 200]], [[100, 200]]⟩

/-- A timetable over the integer-id pattern (1, 2) with one trip that
departs stop 1 at second 100 and arrives at stop 2 at second 200. -/
def tt12 : Timetable :=
  ⟨[PyScalar.strv "trip1"], [PyScalar.intv 1, PyScalar.intv 2],
   [[100, 200]], [[100, 200]]⟩

/-- The feed holding `tt12` as timetable (pattern 0, service 7), with the
service active on day 0.  `day_end` is the maximum departure time 200. -/
def feed12 : GTFSFeed :=
  ⟨fun s => if s = PyScalar.intv 1 ∨ s = PyScalar.intv 2 then [0] else [],
   fun d => if d = 0 then [7] else [],
   [((0, 7), tt12)],
   200⟩

/-- A timetable whose single trip departs stop 1 at 25:30 (91800 s) and
arrives at stop 2 at 93500 s, departing it at 93600 s (26:00). -/
def ttLate : Timetable :=
  ⟨[PyScalar.strv "late"], [PyScalar.intv 1, PyScalar.intv 2],
   [[91800, 93500]], [[91800, 93600]]⟩

/-- Feed with `day_end = 93600` whose only service (id 5) runs on day 0;
day 1 is present in the service-date dict with no active service (a
`calendar_dates.txt` remove-exception creates exactly such an entry). -/
def feedLate : GTFSFeed :=
  ⟨fun s => if s = PyScalar.intv 1 ∨ s = PyScalar.intv 2 then [0] else [],
   fun d => if d = 0 then [5] else [],
   [((0, 5), ttLate)],
   93600⟩

/-- Two trips of one (pattern, service) group: trip t1 reaches the first
stop at 0 and leaves it at 100; trip t2 reaches it at 50 and leaves at 60.
Both are monotone along the trip, so the group is valid GTFS data. -/
def tripsOvertake : List TripSchedule :=
  [⟨PyScalar.strv "t1", [0, 200], [100, 200]⟩,
   ⟨PyScalar.strv "t2", [50, 300], [60, 300]⟩]

/-- The timetable ingest builds from `tripsOvertake`. -/
def ttOvertake : Timetable :=
  make_timetable [PyScalar.strv "A", PyScalar.strv "B"] tripsOvertake

/-- A timetable whose two trips share the departure time 100 at column 0
(the FIFO invariant allows equal times). -/
def ttDup : Timetable :=
  ⟨[PyScalar.strv "t1", PyScalar.strv "t2"], [PyScalar.intv 1, PyScalar.intv 2],
   [[100, 200], [100, 300]], [[100, 200], [100, 300]]⟩

/-- A timetable with two strictly separated trips, used to exercise the
departure lookup away from ties. -/
def ttTwo : Timetable :=
  ⟨[PyScalar.strv "t1", PyScalar.strv "t2"], [PyScalar.intv 1, PyScalar.intv 2],
   [[100, 200], [150, 300]], [[100, 200], [150, 300]]⟩

/-- Timetable of stop-pattern 8 (stops 1 then 3), one trip departing stop 1
at 100. -/
def ttPat8 : Timetable :=
  ⟨[PyScalar.strv "p8t"], [PyScalar.intv 1, PyScalar.intv 3],
   [[100, 150]], [[100, 150]]⟩

/-- Timetable of stop-pattern 1 (stops 1 then 4), one trip departing stop 1
at 120. -/
def ttPat1 : Timetable :=
  ⟨[PyScalar.strv "p1t"], [PyScalar.intv 1, PyScalar.intv 4],
   [[120, 160]], [[120, 160]]⟩

/-- A feed where stop 1 is served by stop patterns 1 and 8.  CPython
iterates the set {1, 8} in hash-table slot order, which is 8 first (8 mod 8
lands in slot 0, 1 in slot 1), so the set index lists pattern 8 before
pattern 1. -/
def feedTwoPatterns : GTFSFeed :=
  ⟨fun s => if s = PyScalar.intv 1 then [8, 1] else [],
   fun d => if d = 0 then [7] else [],
   [((8, 7), ttPat8), ((1, 7), ttPat1)],
   160⟩

/-- A street network with a one-way way 1 (nodes 10-11-12) and an ordinary
two-way way 2 (nodes 20-21-22); nodes are placed on the x axis. -/
def sdTwoWays : StreetData :=
  ⟨[(1, ⟨[10, 11, 12], [("highway", "residential"), ("oneway", "yes")]⟩),
    (2, ⟨[20, 21, 22], [("highway", "residential")]⟩)],
   fun n => ((n : ℚ), 0)⟩

/-- A length function that measures nothing; `outgoing_midstreet_vertex` is
parametric in the haversine length, and the structural claims do not depend
on it. -/
def llen0 : List (ℚ × ℚ) → ℚ := fun _ => 0

/-! Helper lemmas about the binary-search model. -/

/-- On a nondecreasing column the left insertion point of the value stored at
row `r` is at most `r`. -/
theorem searchsorted_left_le (l : List Nat) (hs : l.Pairwise (· ≤ ·)) (r : Nat)
    (hr : r < l.length) :
    searchsorted_left l (l.getD r 0) ≤ r := by
  induction l generalizing r with
  | nil => simp at hr
  | cons a t ih =>
    rw [List.pairwise_cons] at hs
    cases r with
    | zero =>
      have h0 : ∀ x ∈ t, ¬ x < a := fun x hx => by
        have := hs.1 x hx; omega
      have : t.countP (fun x => decide (x < a)) = 0 :=
        List.countP_eq_zero.mpr (fun x hx => by simpa using h0 x hx)
      simp [searchsorted_left, List.countP_cons, this]
    | succ n =>
      have hn : n < t.length := by simpa using hr
      have hih := ih hs.2 n hn
      simp only [searchsorted_left, List.countP_cons, List.getD_cons_succ] at *
      have hite : (if decide (a < t.getD n 0) = true then (1 : Nat) else 0) ≤ 1 := by
        split <;> omega
      omega

/-- On a nondecreasing column containing the query, the left insertion point
is in range and stores exactly the query value. -/
theorem searchsorted_left_mem (l : List Nat) (q : Nat) (hs : l.Pairwise (· ≤ ·))
    (hq : q ∈ l) :
    searchsorted_left l q < l.length ∧ l.getD (searchsorted_left l q) 0 = q := by
  induction l with
  | nil => cases hq
  | cons a t ih =>
    rw [List.pairwise_cons] at hs
    by_cases hlt : a < q
    · have hqt : q ∈ t := by
        cases hq with
        | head => omega
        | tail _ h => exact h
      have hih := ih hs.2 hqt
      have hcount : searchsorted_left (a :: t) q = searchsorted_left t q + 1 := by
        simp [searchsorted_left, List.countP_cons, hlt]
      refine ⟨by simp only [hcount, List.length_cons]; omega, ?_⟩
      simpa [hcount, List.getD_cons_succ] using hih.2
    · have h0 : ∀ x ∈ t, ¬ x < q := fun x hx => by
        have := hs.1 x hx; omega
      have hcount : searchsorted_left (a :: t) q = 0 := by
        have ht : t.countP (fun x => decide (x < q)) = 0 :=
          List.countP_eq_zero.mpr (fun x hx => by simpa using h0 x hx)
        simp [searchsorted_left, List.countP_cons, hlt, ht]
      have haq : a = q := by
        cases hq with
        | head => rfl
        | tail _ h => have := hs.1 q h; omega
      refine ⟨by simp [hcount], ?_⟩
      rw [hcount, List.getD_cons_zero]
      exact haq

/-- Wrapping `uint32` subtraction agrees with truncation-free subtraction on
in-range operands. -/
theorem u32sub_eq (a d : Nat) (had : a ≤ d) (hd : d < 4294967296) :
    u32sub d a = d - a := by
  unfold u32sub; omega

/-- A list all of whose pairs of members are related is pairwise related. -/
theorem pairwise_of_forall_mem {α : Type} {R : α → α → Prop} :
    ∀ {m : List α}, (∀ x ∈ m, ∀ y ∈ m, R x y) → m.Pairwise R := by
  intro m
  induction m with
  | nil => exact fun _ => List.Pairwise.nil
  | cons a t ih =>
    intro hall
    refine List.Pairwise.cons ?_ (ih ?_)
    · intro b hb
      exact hall a (List.mem_cons_self a t) b (List.mem_cons_of_mem a hb)
    · intro x hx y hy
      exact hall x (List.mem_cons_of_mem a hx) y (List.mem_cons_of_mem a hy)

/-- A flat map is pairwise related when each block is, and any two blocks in
outer-list order are related elementwise. -/
theorem pairwise_flatMap {α β : Type} (ps : List β) (g : β → List α)
    (R : α → α → Prop)
    (hinner : ∀ p ∈ ps, (g p).Pairwise R)
    (hcross : ps.Pairwise (fun p q => ∀ x ∈ g p, ∀ y ∈ g q, R x y)) :
    (ps.flatMap g).Pairwise R := by
  induction ps with
  | nil => simp
  | cons p rest ih =>
    rw [List.pairwise_cons] at hcross
    rw [List.flatMap_cons, List.pairwise_append]
    refine ⟨hinner p (List.mem_cons_self p rest),
      ih (fun q hq => hinner q (List.mem_cons_of_mem p hq)) hcross.2, ?_⟩
    intro x hx y hy
    obtain ⟨q, hq, hyq⟩ := List.mem_flatMap.mp hy
    exact hcross.1 q hq x hx y hyq

/-- A duplicate-free list is pairwise strictly ordered by element position. -/
theorem nodup_pairwise_indexOf_lt {α : Type} [DecidableEq α] (l : List α)
    (h : l.Nodup) :
    l.Pairwise (fun a b => l.indexOf a < l.indexOf b) := by
  rw [List.pairwise_iff_getElem]
  intro i j hi hj hij
  rw [List.indexOf_getElem h i hi, List.indexOf_getElem h j hj]
  exact hij

/-! Claim theorems. -/

/-- C1: the claim says `find_timetable_events` returns one event per column
whose stop id matches and whose lookup succeeds, and in particular a
non-empty list when the stop occurs at a non-terminal column with a
departure at or after the query.  The code violates this for string stop
ids: `self.stop_ids == stop_id` compares the whole tuple with the string,
yielding the scalar `False`, so `np.flatnonzero` finds no columns and the
function returns the empty list even though stop "A" sits at non-terminal
column 0 with departure 100 >= 50. -/
theorem find_timetable_events_string_stop_empty :
    ttAB.stop_ids.getD 0 (PyScalar.strv "") = PyScalar.strv "A" ∧
    0 + 1 < ttAB.stop_ids.length ∧
    50 ≤ (npCol ttAB.departure_times 0).getD 0 0 ∧
    find_timetable_events ttAB (PyScalar.strv "A") 50 true = [] := by decide

/-- C2: the claim says a boarding edge out of `AtStop(s, t)` has weight
`t_dep - t`.  The code computes
`(event.datetime - adj_vertex.datetime).seconds` where `adj_vertex` was just
built carrying `event.datetime` itself, so every boarding weight is 0: on
the minimal feed, `AtStop(stop 1, t = 50)` gets the single edge to
`Departure(0, 7, 0, 0, t_dep = 100)` with weight 0, not 50. -/
theorem at_stop_boarding_edge_weight_zero :
    transit_outgoing feed12 (Vertex.atStop (PyScalar.intv 1) 50) =
      some [⟨Vertex.departure 0 7 0 0 100, 0⟩] ∧
    (0 : ℚ) ≠ ((50 : Nat) : ℚ) := by
  exact ⟨by decide, by decide⟩

/-- C3 counterexample: with `day_end = 93600` the rollover test
`7200 + 86400 < 93600` is false (strict inequality), so a 02:00 query on
day 1 is not shifted to the previous service date and the 25:30 departure
of day 0 is not returned: the result is empty, not non-empty as claimed. -/
theorem find_stop_events_no_rollover_at_0200 :
    feedLate.day_end = 93600 ∧
    find_stop_events feedLate (PyScalar.intv 1) (86400 + 7200) true = [] := by decide

/-- C3 amended: with `day_end = 93600`, a query strictly inside the overlap
window is shifted; at 01:30 on day 1 the internal query becomes 91800
seconds on service date 0 and the 25:30 (91800 s) departure of day 0 is
returned. -/
theorem find_stop_events_rollover_at_0130 :
    find_stop_events feedLate (PyScalar.intv 1) (86400 + 5400) true
      = [⟨0, 5, 0, 0, 91800⟩] := by decide

/-- C4 counterexample: ingest sorts the rows of a timetable group by
first-stop *arrival* (`sort_values("arrival_time", key=x[0])`), not by
first-stop departure; on `tripsOvertake` the resulting first-stop departure
column is [100, 60], which is not ascending. -/
theorem timetable_rows_not_sorted_by_first_departure :
    ttOvertake.departure_times.map (fun row => row.headD 0) = [100, 60] ∧
    ¬ (100 : Nat) ≤ 60 := by decide

/-- C4 amended: every timetable built by the ingest grouper has its rows
sorted ascending by the first-stop arrival time. -/
theorem timetable_rows_sorted_by_first_arrival (stop_ids : List PyScalar)
    (trips : List TripSchedule) :
    (make_timetable stop_ids trips).arrival_times.Pairwise
      (fun x y => x.headD 0 ≤ y.headD 0) := by
  have h := List.sorted_insertionSort tripLE trips
  unfold make_timetable sort_trips
  exact List.Pairwise.map _ (fun a b hab => hab) h

/-- C5 counterexample: on a timetable whose two trips share the departure
time 100 at column 0, the left-biased search returns row 0 for a query at
`departure[1][0]`, so `_lookup_departure(c, departure[r][c]) = (r, ...)`
fails at r = 1. -/
theorem lookup_departure_duplicate_not_row_biased :
    (npCol ttDup.departure_times 0).getD 1 0 = 100 ∧
    lookup_departure ttDup 0 100 = some (0, 100) ∧
    ((0 : Nat), (100 : Nat)) ≠ ((1 : Nat), (100 : Nat)) := by decide

/-- C5 amended: for a non-terminal column whose departure column is
nondecreasing, querying at the stored time `departure[r][c]` succeeds and
returns that exact time, at the smallest row carrying it (which is `r`
itself whenever the column values are distinct). -/
theorem lookup_departure_exact_time (tt : Timetable) (r c : Nat)
    (hcs : c + 1 < tt.stop_ids.length)
    (hr : r < tt.departure_times.length)
    (hsorted : (npCol tt.departure_times c).Pairwise (· ≤ ·)) :
    ∃ rr, rr ≤ r ∧
      lookup_departure tt c ((npCol tt.departure_times c).getD r 0)
        = some (rr, (npCol tt.departure_times c).getD r 0) := by
  have hlen : (npCol tt.departure_times c).length = tt.departure_times.length := by
    simp [npCol]
  have hr' : r < (npCol tt.departure_times c).length := by omega
  have hle := searchsorted_left_le (npCol tt.departure_times c) hsorted r hr'
  have hmem : (npCol tt.departure_times c).getD r 0 ∈ npCol tt.departure_times c := by
    have hg : (npCol tt.departure_times c).getD r 0
        = (npCol tt.departure_times c).get ⟨r, hr'⟩ := by
      simp [List.getD_eq_getElem?_getD, List.getElem?_eq_getElem hr']
    rw [hg]
    exact List.get_mem _ _ _
  have hspec := searchsorted_left_mem (npCol tt.departure_times c)
    ((npCol tt.departure_times c).getD r 0) hsorted hmem
  refine ⟨searchsorted_left (npCol tt.departure_times c)
    ((npCol tt.departure_times c).getD r 0), hle, ?_⟩
  unfold lookup_departure
  rw [if_neg (by omega), if_neg (by omega)]
  rw [hspec.2]

/-- C5 witness: a two-trip timetable with distinct departures 100 and 150
at column 0; the lookup at 150 returns a row at or before row 1 with the
exact time. -/
theorem lookup_departure_exact_time_witness :
    0 + 1 < ttTwo.stop_ids.length ∧ 1 < ttTwo.departure_times.length ∧
    (npCol ttTwo.departure_times 0).Pairwise (· ≤ ·) ∧
    (∃ rr, rr ≤ 1 ∧
      lookup_departure ttTwo 0 ((npCol ttTwo.departure_times 0).getD 1 0)
        = some (rr, (npCol ttTwo.departure_times 0).getD 1 0)) :=
  ⟨by decide, by decide, by decide,
   lookup_departure_exact_time ttTwo 1 0 (by decide) (by decide) (by decide)⟩

/-- C6: out of an `Arrival(p, svc, r, c, t)` vertex the transit provider
returns exactly the wait edge to `Departure(p, svc, r, c, t + dwell)` with
weight `dwell = departure[r][c] - arrival[r][c]`, followed by the alighting
edge to `AtStop(stop_ids[c], t)` with weight 60, in that order. -/
theorem arrival_outgoing_wait_then_alight (feed : GTFSFeed) (p svc r c : Nat)
    (t : Int) (tt : Timetable) (a d : Nat) (s : PyScalar)
    (hT : feed.timetables.lookup (p, svc) = some tt)
    (ha : nth2 tt.arrival_times r c = some a)
    (hd : nth2 tt.departure_times r c = some d)
    (hs : tt.stop_ids.get? c = some s)
    (had : a ≤ d) (hd32 : d < 4294967296) :
    transit_outgoing feed (Vertex.arrival p svc r c t) =
      some [⟨Vertex.departure p svc r c (t + ((d - a : Nat) : Int)), ((d - a : Nat) : ℚ)⟩,
            ⟨Vertex.atStop s t, ALIGHTING_WEIGHT⟩] := by
  have hu : u32sub d a = d - a := u32sub_eq a d had hd32
  simp only [transit_outgoing, arrival_vertex_outgoing, hT, ha, hd, hs, hu]

/-- C6 witness: the arrival at column 1 of the minimal feed, with zero
dwell. -/
theorem arrival_outgoing_wait_then_alight_witness :
    transit_outgoing feed12 (Vertex.arrival 0 7 0 1 200) =
      some [⟨Vertex.departure 0 7 0 1 (200 + ((200 - 200 : Nat) : Int)),
             ((200 - 200 : Nat) : ℚ)⟩,
            ⟨Vertex.atStop (PyScalar.intv 2) 200, ALIGHTING_WEIGHT⟩] :=
  arrival_outgoing_wait_then_alight feed12 0 7 0 1 200 tt12 200 200 (PyScalar.intv 2)
    (by decide) (by decide) (by decide) (by decide) (by decide) (by decide)

/-- C9: vertex equality compares the identity tuple, i.e. the class name
together with `as_tuple()`; vertices of different variants are unequal even
with identical tuples, and equal vertices have equal hashes (the hash is a
function of the identity tuple). -/
theorem vertex_equality_variant_qualified (v w : Vertex) :
    (vertex_eq v w = true ↔ (className v = className w ∧ as_tuple v = as_tuple w)) ∧
    (className v ≠ className w → vertex_eq v w = false) ∧
    (∀ H : String × List FieldVal → Nat,
      vertex_eq v w = true → H (identity_tuple v) = H (identity_tuple w)) := by
  refine ⟨?_, ?_, ?_⟩
  · simp [vertex_eq, identity_tuple, Prod.ext_iff]
  · intro hne
    simp only [vertex_eq, identity_tuple, decide_eq_false_iff_not, Prod.mk.injEq, not_and]
    intro hc
    exact absurd hc hne
  · intro H h
    have hid : identity_tuple v = identity_tuple w := of_decide_eq_true h
    rw [hid]

/-- C9 witness: a departure and an arrival with identical field tuples
compare unequal. -/
theorem vertex_equality_variant_qualified_witness :
    vertex_eq (Vertex.departure 1 2 3 4 5) (Vertex.arrival 1 2 3 4 5) = false ∧
    as_tuple (Vertex.departure 1 2 3 4 5) = as_tuple (Vertex.arrival 1 2 3 4 5) := by
  constructor
  · exact (vertex_equality_variant_qualified (Vertex.departure 1 2 3 4 5)
      (Vertex.arrival 1 2 3 4 5)).2.1 (by decide)
  · decide

/-- C10: the claim says the transit provider is total on every vertex
reachable from an `AtStop` vertex.  The code violates it: following
boarding, riding, and the wait edge of the arrival at the terminal column 1
reaches `Departure(0, 7, 0, 1, 200)`, and `_departure_vertex_outgoing` on
that vertex reads `arrival_times[0, 2]` out of bounds (modelled by `none`,
an IndexError in the source). -/
theorem transit_outgoing_terminal_wait_target_crashes :
    (⟨Vertex.departure 0 7 0 0 100, 0⟩ : Edge) ∈
        (transit_outgoing feed12 (Vertex.atStop (PyScalar.intv 1) 50)).getD [] ∧
    (⟨Vertex.arrival 0 7 0 1 200, 100⟩ : Edge) ∈
        (transit_outgoing feed12 (Vertex.departure 0 7 0 0 100)).getD [] ∧
    (⟨Vertex.departure 0 7 0 1 200, 0⟩ : Edge) ∈
        (transit_outgoing feed12 (Vertex.arrival 0 7 0 1 200)).getD [] ∧
    transit_outgoing feed12 (Vertex.departure 0 7 0 1 200) = none := by decide

/-- C7: on a one-way way a `Midstreet` vertex emits only the forward edge;
on a way that is not one-way it emits the forward edge followed by the
reverse edge.  The forward edge ends at the last node of the forward block
slice; the reverse edge at the last node of the reverse slice. -/
theorem midstreet_oneway_suppresses_reverse (sd : StreetData)
    (llen : List (ℚ × ℚ) → ℚ) (way_id : Int) (segment_index : Nat)
    (offset_int : Int) (t : Int) (w : Way) (mp : ℚ × ℚ) (seg_end : Nat)
    (last_nd : Int) (dt : ℚ) (fwd : Edge)
    (hw : sd.ways.lookup way_id = some w)
    (hmp : get_way_point sd way_id segment_index offset_int = some mp)
    (hse : adj_vertex_node sd w (segment_index + 1) true = some seg_end)
    (hlast : (slice_fwd w.nds (segment_index + 1) (seg_end + 1)).getLast? = some last_nd)
    (hdt : dt = llen (mp :: (slice_fwd w.nds (segment_index + 1) (seg_end + 1)).map sd.nodes)
                  / WALKING_SPEED)
    (hfwd : fwd = ⟨Vertex.streetNode last_nd (t + timedelta_whole_seconds dt),
                   dt * WALKING_RELUCTANCE⟩) :
    (is_oneway sd way_id = true →
      outgoing_midstreet_vertex sd llen way_id segment_index offset_int t = some [fwd]) ∧
    (is_oneway sd way_id = false →
      ∀ seg_end2 last_nd2,
        adj_vertex_node sd w segment_index false = some seg_end2 →
        (slice_rev w.nds segment_index
            (if seg_end2 ≠ 0 then some ((seg_end2 : Int) - 1) else none)).getLast?
          = some last_nd2 →
        ∃ dt2 : ℚ,
          dt2 = llen (mp :: (slice_rev w.nds segment_index
                (if seg_end2 ≠ 0 then some ((seg_end2 : Int) - 1) else none)).map sd.nodes)
              / WALKING_SPEED ∧
          outgoing_midstreet_vertex sd llen way_id segment_index offset_int t =
            some [fwd, ⟨Vertex.streetNode last_nd2 (t + timedelta_whole_seconds dt2),
                        dt2 * WALKING_RELUCTANCE⟩]) := by
  constructor
  · intro h1
    rw [hfwd, hdt]
    simp only [outgoing_midstreet_vertex, hw, hmp, hse, hlast, h1, if_true]
  · intro h0 seg_end2 last_nd2 hse2 hlast2
    refine ⟨_, rfl, ?_⟩
    rw [hfwd, hdt]
    simp only [outgoing_midstreet_vertex, hw, hmp, hse, hlast, h0, hse2, hlast2,
      Bool.false_eq_true, if_false]

/-- C7 witness: on the one-way way 1 of `sdTwoWays`, the midstreet vertex of
its first segment emits exactly one edge. -/
theorem midstreet_oneway_suppresses_reverse_witness :
    is_oneway sdTwoWays 1 = true ∧
    ∃ e, outgoing_midstreet_vertex sdTwoWays llen0 1 0 50000 0 = some [e] := by
  have h := (midstreet_oneway_suppresses_reverse sdTwoWays llen0 1 0 50000 0
      ⟨[10, 11, 12], [("highway", "residential"), ("oneway", "yes")]⟩
      (interpolate_point (sdTwoWays.nodes 10) (sdTwoWays.nodes 11) ((50000 : ℚ) / 100000))
      2 12 _ _ (by decide) rfl (by decide) (by decide) rfl rfl).1 (by decide)
  exact ⟨by decide, ⟨_, h⟩⟩

/-- C8 counterexample: for the feed whose stop-pattern set index for stop 1
iterates as [8, 1] (the CPython iteration order of the set {1, 8}), the
boarding edges out of `AtStop(1, 0)` carry pattern ids 8 then 1, which is
not ascending. -/
theorem at_stop_edges_not_sorted_by_pattern :
    feedTwoPatterns.stop_pattern_ids (PyScalar.intv 1) = [8, 1] ∧
    transit_outgoing feedTwoPatterns (Vertex.atStop (PyScalar.intv 1) 0) =
      some [⟨Vertex.departure 8 7 0 0 100, 0⟩, ⟨Vertex.departure 1 7 0 0 120, 0⟩] ∧
    ¬ (8 : Nat) ≤ 1 := by decide

/-- C8 amended: the boarding events come out grouped by stop pattern in the
iteration order of the feed stop-pattern set index and, within a pattern, in
the iteration order of the active-service set for the consulted service
date; both are hash orders, not ascending sorts.  Formally, any two events
of `find_stop_events(stop, t, departures)` are ordered lexicographically by
(position of the pattern id in the pattern index, position of the service id
in the service set). -/
theorem at_stop_events_ordered_by_pattern_then_service (feed : GTFSFeed)
    (s : PyScalar) (t : Int)
    (hnd : (feed.stop_pattern_ids s).Nodup)
    (hnds : (feed.service_dates (query_service_date feed t)).Nodup) :
    (find_stop_events feed s t true).Pairwise
      (fun ev ev2 =>
        (feed.stop_pattern_ids s).indexOf ev.pattern_id
            < (feed.stop_pattern_ids s).indexOf ev2.pattern_id
        ∨ (ev.pattern_id = ev2.pattern_id ∧
            (feed.service_dates (query_service_date feed t)).indexOf ev.service_id
              ≤ (feed.service_dates (query_service_date feed t)).indexOf
                  ev2.service_id)) := by
  have hblock : ∀ pid sid ev,
      ev ∈ (match feed.timetables.lookup (pid, sid) with
            | none => ([] : List TransitEvent)
            | some tt =>
                (find_timetable_events tt s
                  (if rollover_shift feed t then seconds_since_midnight t + 86400
                   else seconds_since_midnight t).toNat true).map
                  (fun e : TimetableEvent =>
                    (⟨pid, sid, e.row, e.col,
                      query_service_date feed t * 86400 + (e.time : Int)⟩ :
                      TransitEvent))) →
      ev.pattern_id = pid ∧ ev.service_id = sid := by
    intro pid sid ev hev
    revert hev
    cases feed.timetables.lookup (pid, sid) with
    | none => intro h; cases h
    | some tt =>
        intro h
        obtain ⟨e0, _, rfl⟩ := List.mem_map.mp h
        exact ⟨rfl, rfl⟩
  show ((feed.stop_pattern_ids s).flatMap _).Pairwise _
  apply pairwise_flatMap
  · intro p hp
    apply pairwise_flatMap
    · intro sid hsid
      apply pairwise_of_forall_mem
      intro x hx y hy
      obtain ⟨hxp, hxs⟩ := hblock p sid x hx
      obtain ⟨hyp, hys⟩ := hblock p sid y hy
      right
      exact ⟨hxp.trans hyp.symm, by rw [hxs, hys]⟩
    · refine (nodup_pairwise_indexOf_lt _ hnds).imp ?_
      intro sid sid2 hlt x hx y hy
      obtain ⟨hxp, hxs⟩ := hblock p sid x hx
      obtain ⟨hyp, hys⟩ := hblock p sid2 y hy
      right
      refine ⟨hxp.trans hyp.symm, ?_⟩
      rw [hxs, hys]
      exact le_of_lt hlt
  · refine (nodup_pairwise_indexOf_lt _ hnd).imp ?_
    intro p q hlt x hx y hy
    obtain ⟨sid, _, hx2⟩ := List.mem_flatMap.mp hx
    obtain ⟨sid2, _, hy2⟩ := List.mem_flatMap.mp hy
    obtain ⟨hxp, _⟩ := hblock p sid x hx2
    obtain ⟨hyp, _⟩ := hblock q sid2 y hy2
    left
    rw [hxp, hyp]
    exact hlt

/-- C8 witness: the two-level ordering property evaluated on
`feedTwoPatterns`. -/
theorem at_stop_events_ordered_by_pattern_then_service_witness :
    (feedTwoPatterns.stop_pattern_ids (PyScalar.intv 1)).Nodup ∧
    (feedTwoPatterns.service_dates (query_service_date feedTwoPatterns 0)).Nodup ∧
    (find_stop_events feedTwoPatterns (PyScalar.intv 1) 0 true).Pairwise
      (fun ev ev2 =>
        (feedTwoPatterns.stop_pattern_ids (PyScalar.intv 1)).indexOf ev.pattern_id
            < (feedTwoPatterns.stop_pattern_ids (PyScalar.intv 1)).indexOf
                ev2.pattern_id
        ∨ (ev.pattern_id = ev2.pattern_id ∧
            (feedTwoPatterns.service_dates
                (query_service_date feedTwoPatterns 0)).indexOf ev.service_id
              ≤ (feedTwoPatterns.service_dates
                  (query_service_date feedTwoPatterns 0)).indexOf ev2.service_id)) :=
  ⟨by decide, by decide,
   at_stop_events_ordered_by_pattern_then_service feedTwoPatterns (PyScalar.intv 1) 0
     (by decide) (by decide)⟩

end Skilift
